import Mathlib

/-!
Verification of the content-evolution engine of `self_evolution_agent.py`
(TTD-DR Self-Evolution Agent).

Shallow embedding conventions:
- Python `float` scores are modelled as `ℚ` (the constants involved, e.g.
  `0.1`, `3.0`, `4.0`, weights `.20/.15/.10/.05`, are all exactly
  representable; no claim sits near a binary-float rounding boundary).
- Python strings are Lean `String` (a structure over `List Char`); string
  slicing/`split`/`join` are modelled on `List Char`.
- `try/except` blocks are modelled with `Except String`; an external oracle
  call that "may raise" is a parameter of type `Except String _`.
- Python dict iteration order (insertion order) is modelled by lists.
- `datetime`/`md5` identifier minting is side effect only; the fields exist
  but their concrete values are irrelevant to every property proved here,
  so they are filled with plain deterministic strings.
-/

set_option maxHeartbeats 1000000

namespace SelfEvolution

/-! ## Basic Python-string machinery on `List Char` -/

/-- Python truncation toward zero, `int(q)` for a float/rational `q`. -/
def pyInt (q : ℚ) : Int :=
  q.num.tdiv (q.den : Int)

/-- Model of the spec's word "round": round half away from zero
(`round(q) = ⌊q + 1/2⌋` for non-negative `q`, which is the only range used). -/
def specRound (q : ℚ) : Int :=
  ⌊q + 1/2⌋

/-- Does the pattern occur as a leading slice of the string? -/
def leadsWith : List Char → List Char → Bool
  | [], _ => true
  | _ :: _, [] => false
  | p :: ps, c :: cs => p == c && leadsWith ps cs

/-- Python substring test `pat in hay`. -/
def isSubstr (pat : List Char) : List Char → Bool
  | [] => leadsWith pat []
  | c :: cs => leadsWith pat (c :: cs) || isSubstr pat cs

/-- Python `s.lower()` (ASCII as used by the source's keyword lists). -/
def lowerStr (s : String) : List Char :=
  s.data.map Char.toLower

/-- Python `any(term in content for term in terms)`. -/
def containsAny (hay : List Char) (terms : List String) : Bool :=
  terms.any (fun t => isSubstr t.data hay)

/-- Python `s.split(sep)` for the two-character separator `[a, b]`
(leftmost, non-overlapping; `"".split(sep) = [""]`). -/
def splitTwo (a b : Char) : List Char → List (List Char)
  | [] => [[]]
  | [c] => [[c]]
  | c1 :: c2 :: rest =>
    if c1 = a ∧ c2 = b then
      [] :: splitTwo a b rest
    else
      match splitTwo a b (c2 :: rest) with
      | [] => [[c1]]
      | h :: t => (c1 :: h) :: t

/-- Python `sep.join(pieces)` for the two-character separator `[a, b]`. -/
def joinTwo (a b : Char) : List (List Char) → List Char
  | [] => []
  | [s] => s
  | s :: t :: rest => s ++ a :: b :: joinTwo a b (t :: rest)

/-- Python `content.split('\n\n')`, the structural section delimiter. -/
def splitSections (s : String) : List (List Char) :=
  splitTwo (Char.ofNat 10) (Char.ofNat 10) s.data

/-- Python `'\n\n'.join(sections)`. -/
def joinSections (sections : List (List Char)) : String :=
  ⟨joinTwo (Char.ofNat 10) (Char.ofNat 10) sections⟩

/-- Python `max(l)` over a list of rationals (`0` stands for the
`ValueError` on an empty list; every use site guards non-emptiness). -/
def listMax : List ℚ → ℚ
  | [] => 0
  | x :: xs => xs.foldl max x

/-- Python `min(l)` over a list of rationals. -/
def listMin : List ℚ → ℚ
  | [] => 0
  | x :: xs => xs.foldl min x

/-- Python slice `l[-w:]` (note `l[-0:] = l`). -/
def pyLastSlice (w : Nat) (l : List ℚ) : List ℚ :=
  if w = 0 then l else l.drop (l.length - w)

/-! ## Engine configuration and convergence logic

Embedding of `SelfEvolutionAgent.__init__` (the `self.config` dict),
`_detect_plateau` and `_check_convergence`. -/

/-- The run-configuration keys read by the evolution loop
(`self.config`; `max_iterations` is an `Int` because a custom config may
supply any integer). -/
structure EvolutionConfig where
  max_iterations : Int
  convergence_threshold : ℚ
  plateau_detection_window : Nat
  quality_improvement_threshold : ℚ
  deriving Repr, DecidableEq

/-- The defaults set in `SelfEvolutionAgent.__init__`. -/
def defaultConfig : EvolutionConfig :=
  { max_iterations := 5
    convergence_threshold := 4
    plateau_detection_window := 3
    quality_improvement_threshold := 1/10 }

/-- `SelfEvolutionAgent._detect_plateau`: requires at least `window + 1`
history entries, then compares `max - min` over `score_history[-window:]`
with the improvement threshold. -/
def detect_plateau (cfg : EvolutionConfig) (score_history : List ℚ) : Bool :=
  let window := cfg.plateau_detection_window
  let threshold := cfg.quality_improvement_threshold
  if score_history.length < window + 1 then
    false
  else
    let recent := pyLastSlice window score_history
    decide (listMax recent - listMin recent < threshold)

/-- `SelfEvolutionAgent._check_convergence`: returns
`(should_continue, reason)`, checking iteration budget, then the
convergence threshold, then the plateau. -/
def check_convergence (cfg : EvolutionConfig) (score_history : List ℚ)
    (current_score : ℚ) (iteration : Int) : Bool × String :=
  if cfg.max_iterations ≤ iteration then
    (false, "Reached maximum iterations")
  else if cfg.convergence_threshold ≤ current_score then
    (false, "Achieved convergence threshold")
  else if detect_plateau cfg score_history then
    (false, "Quality plateau detected - no significant improvement")
  else
    (true, "Continue evolution")

/-! ## The evolution loop (`SelfEvolutionAgent.evolve_content`)

`_execute_evolution_iteration` performs the oracle-dependent work of one
iteration (generation, judging, merging; it contains a randomized judge),
so the loop is parametrized by `runIter : Nat → String → Except String
IterResult`, mapping the 1-based iteration number and the current best
content to that iteration's `best_content` (the merge result) and
`best_score` (the max critique score); an `Except.error` models an
uncaught exception inside the iteration body, which the outer
`try/except` of `evolve_content` converts into an error result. -/

/-- The part of `_execute_evolution_iteration`'s result dict that the loop
reads. -/
structure IterResult where
  best_content : String
  best_score : ℚ
  deriving Repr, DecidableEq

/-- The cross-iteration mutable state of `evolve_content`: the local
`best_content`/`best_score` plus the `EvolutionProgress` counters. -/
structure LoopState where
  best_content : String
  best_score : ℚ
  completed_iterations : Nat
  score_history : List ℚ
  deriving Repr, DecidableEq

/-- The state update at the end of one loop pass of `evolve_content`:
ratchet `best_content`/`best_score` when the iteration's best critique
score strictly exceeds the current best, append the (running) best score
to the score history, and bump `completed_iterations`. -/
def loopStep (st : LoopState) (r : IterResult) : LoopState :=
  let best_content :=
    if st.best_score < r.best_score then r.best_content else st.best_content
  let best_score :=
    if st.best_score < r.best_score then r.best_score else st.best_score
  { best_content := best_content
    best_score := best_score
    completed_iterations := st.completed_iterations + 1
    score_history := st.score_history ++ [best_score] }

/-- The `for iteration in range(max_iterations)` loop of `evolve_content`:
run one iteration, apply `loopStep`, and stop early when
`_check_convergence` says so. `fuel` is the number of loop passes
remaining. -/
def evolveLoop (cfg : EvolutionConfig)
    (runIter : Nat → String → Except String IterResult) :
    Nat → LoopState → Except String LoopState
  | 0, st => .ok st
  | fuel + 1, st =>
    match runIter (st.completed_iterations + 1) st.best_content with
    | .error e => .error e
    | .ok r =>
      let st2 := loopStep st r
      if (check_convergence cfg st2.score_history st2.best_score
            (st.completed_iterations + 1 : Int)).1 then
        evolveLoop cfg runIter fuel st2
      else
        .ok st2

/-- The input dict of `evolve_content`: `content`, the truthiness of
`target_section`, and the effective configuration (the source applies
`config.update(custom_config)`; the merged result is what matters to the
loop, so the caller supplies it directly). -/
structure EvolveInput where
  content : String
  has_target_section : Bool
  config : EvolutionConfig

/-- The result dict of `evolve_content`, restricted to the keys the claims
mention; `status` is `"success"` or `"error"`, and the `Option` fields
model keys absent from the other branch's dict. -/
structure EvolveResult where
  status : String
  error : Option String
  final_content : Option String
  final_score : Option ℚ
  iterations_completed : Option Nat
  deriving Repr, DecidableEq

/-- `SelfEvolutionAgent.evolve_content`: validate inputs (empty `content`
or falsy `target_section` raises `ValueError`), run the iteration loop
from `best_content = base_content`, `best_score = 0.0`, and wrap
everything in the outer `try/except` that converts any raised exception
into a `status == 'error'` dict. -/
def evolve_content (input : EvolveInput)
    (runIter : Nat → String → Except String IterResult) : EvolveResult :=
  let body : Except String LoopState :=
    if input.content = "" ∨ input.has_target_section = false then
      .error "Missing required input: content or target_section"
    else
      evolveLoop input.config runIter input.config.max_iterations.toNat
        { best_content := input.content
          best_score := 0
          completed_iterations := 0
          score_history := [] }
  match body with
  | .ok st =>
    { status := "success"
      error := none
      final_content := some st.best_content
      final_score := some st.best_score
      iterations_completed := some st.completed_iterations }
  | .error e =>
    { status := "error"
      error := some e
      final_content := none
      final_score := none
      iterations_completed := none }

/-! ## Data model (`VariantType`, `EvaluationDimension`, dataclasses) -/

/-- The six generation strategies (`VariantType` enum). -/
inductive VariantType
  | perspective_shift
  | structure_reorganization
  | depth_enhancement
  | breadth_expansion
  | critical_analysis
  | synthesis_integration
  deriving Repr, DecidableEq

/-- The eight judging dimensions (`EvaluationDimension` enum), listed in
the insertion order of `self.evaluation_criteria`. -/
inductive EvaluationDimension
  | accuracy
  | completeness
  | coherence
  | originality
  | evidence_quality
  | logical_flow
  | critical_thinking
  | synthesis_quality
  deriving Repr, DecidableEq

/-- The `.value` string of a dimension, used as a dict key in
`dimension_scores` and `quality_scores`. -/
def dimensionName : EvaluationDimension → String
  | .accuracy => "accuracy"
  | .completeness => "completeness"
  | .coherence => "coherence"
  | .originality => "originality"
  | .evidence_quality => "evidence_quality"
  | .logical_flow => "logical_flow"
  | .critical_thinking => "critical_thinking"
  | .synthesis_quality => "synthesis_quality"

/-- The dimensions in the iteration order of `self.evaluation_criteria.items()`. -/
def allDimensions : List EvaluationDimension :=
  [.accuracy, .completeness, .coherence, .originality,
   .evidence_quality, .logical_flow, .critical_thinking, .synthesis_quality]

/-- The fixed dimension weight from `self.evaluation_criteria`
(`.20/.15/.15/.10/.15/.10/.10/.05`). -/
def dimensionWeight : EvaluationDimension → ℚ
  | .accuracy => 2/10
  | .completeness => 15/100
  | .coherence => 15/100
  | .originality => 1/10
  | .evidence_quality => 15/100
  | .logical_flow => 1/10
  | .critical_thinking => 1/10
  | .synthesis_quality => 5/100

/-- The `description` string of a dimension's evaluation criteria. -/
def dimensionDescription : EvaluationDimension → String
  | .accuracy => "Factual correctness and evidence alignment"
  | .completeness => "Coverage of required topics and aspects"
  | .coherence => "Logical flow and structural organization"
  | .originality => "Novel insights and creative analysis"
  | .evidence_quality => "Quality and integration of supporting evidence"
  | .logical_flow => "Reasoning quality and argumentative structure"
  | .critical_thinking => "Critical analysis and evaluation depth"
  | .synthesis_quality => "Integration of multiple perspectives and sources"

/-- The `ContentVariant` dataclass. `quality_scores` is a string-keyed
dict (the fallback variant stores an `'overall'` key, the evaluator later
stores dimension keys). -/
structure ContentVariant where
  variant_id : String
  variant_type : VariantType
  content : String
  generation_strategy : String
  base_content_id : String
  quality_scores : List (String × ℚ)
  improvement_rationale : String
  generation_timestamp : String
  tokens_generated : Nat
  deriving Repr, DecidableEq

/-- The `CritiquePoint` dataclass. -/
structure CritiquePoint where
  critique_id : String
  dimension : EvaluationDimension
  severity : Int
  issue_description : String
  suggested_improvement : String
  evidence_required : List String
  priority_level : Int
  deriving Repr, DecidableEq

/-- The `ComprehensiveCritique` dataclass. -/
structure ComprehensiveCritique where
  critique_id : String
  target_variant_id : String
  overall_score : ℚ
  dimension_scores : List (String × ℚ)
  critique_points : List CritiquePoint
  improvement_priorities : List String
  strengths_identified : List String
  revision_recommendations : List String
  timestamp : String
  deriving Repr, DecidableEq

/-- Python `len(s.split())`: number of whitespace-separated words. -/
def pyWordCount (s : String) : Nat :=
  ((s.data.splitOnP (fun c => c.isWhitespace)).filter (fun w => !w.isEmpty)).length

/-- `VariantGenerator._create_fallback_variant`: content is a verbatim
copy of the request's `base_content` (the md5/timestamp id minting is
replaced by deterministic strings; no property depends on id values). -/
def create_fallback_variant (base_content : String) (variant_type : VariantType) :
    ContentVariant :=
  { variant_id := "fallback_" ++ base_content
    variant_type := variant_type
    content := base_content
    generation_strategy := "fallback"
    base_content_id := "md5_" ++ base_content
    quality_scores := [("overall", 1/2)]
    improvement_rationale := "Fallback variant due to generation failure"
    generation_timestamp := ""
    tokens_generated := pyWordCount base_content }

/-! ## The judge (`LLMJudgeEvaluator`)

`_calculate_dimension_score` calls `random.uniform(-0.2, 0.2)`; the drawn
offset is passed in as the parameter `r`. Evidence items contribute only
their `quality_score`, so the evidence list is embedded as `List ℚ`. -/

/-- `LLMJudgeEvaluator._calculate_dimension_score`: a dimension-specific
base score, plus the random offset, clamped into `[1, 5]` by
`max(1.0, min(5.0, base_score))`. -/
def calc_dimension_score (content : String) (dim : EvaluationDimension)
    (required_elements : List String) (evidenceQuality : List ℚ) (r : ℚ) : ℚ :=
  let lower := lowerStr content
  let highQualityCount := (evidenceQuality.filter (fun q => decide (7/10 < q))).length
  let base : ℚ :=
    match dim with
    | .accuracy =>
      let b : ℚ := 3
      let b := if containsAny lower ["research shows", "study found", "data indicates"]
        then b + 1/2 else b
      let b := if containsAny lower ["according to", "evidence suggests"]
        then b + 3/10 else b
      if 2 < highQualityCount then b + 1/5 else b
    | .completeness =>
      let covered := (required_elements.filter (fun e => isSubstr (lowerStr e) lower)).length
      let ratio : ℚ := (covered : ℚ) / (max required_elements.length 1 : ℚ)
      1 + ratio * 4
    | .coherence =>
      let b : ℚ := 3
      let b := if 3 ≤ (splitSections content).length then b + 1/2 else b
      if containsAny lower ["therefore", "however", "furthermore", "consequently"]
        then b + 3/10 else b
    | .evidence_quality =>
      1 + min ((highQualityCount : ℚ) / 3) 1 * 4
    | _ => 3
  max 1 (min 5 (base + r))

/-- `LLMJudgeEvaluator._get_improvement_suggestion`. -/
def get_improvement_suggestion : EvaluationDimension → String
  | .accuracy => "Strengthen factual claims with additional evidence and citations"
  | .completeness => "Address missing required elements and expand coverage"
  | .coherence => "Improve logical flow and paragraph transitions"
  | .originality => "Add unique insights and creative analytical perspectives"
  | .evidence_quality => "Integrate higher-quality sources and evidence"
  | .logical_flow => "Strengthen reasoning and argumentative structure"
  | .critical_thinking => "Add critical evaluation and alternative perspectives"
  | .synthesis_quality => "Better integrate multiple sources and viewpoints"

/-- `LLMJudgeEvaluator._get_evidence_requirements` (dimensions absent from
the dict get the default list). -/
def get_evidence_requirements : EvaluationDimension → List String
  | .accuracy => ["peer-reviewed sources", "recent data", "authoritative references"]
  | .completeness => ["comprehensive coverage", "additional perspectives", "missing elements"]
  | .coherence => ["clear transitions", "logical structure", "topic sentences"]
  | .evidence_quality => ["high-impact sources", "primary research", "expert opinions"]
  | _ => ["general supporting evidence"]

/-- `LLMJudgeEvaluator._generate_dimension_critique_points`: one point
when `score < 3.0` with `severity = int(4 - score)` (truncation toward
zero) and `priority_level` the same expression; none otherwise. The
f-string number formatting inside `issue_description` is elided. -/
def generate_dimension_critique_points (dim : EvaluationDimension) (score : ℚ) :
    List CritiquePoint :=
  if score < 3 then
    [{ critique_id := "cp_" ++ dimensionName dim
       dimension := dim
       severity := pyInt (4 - score)
       issue_description := "Score below threshold for " ++ dimensionDescription dim
       suggested_improvement := get_improvement_suggestion dim
       evidence_required := get_evidence_requirements dim
       priority_level := pyInt (4 - score) }]
  else
    []

/-- `LLMJudgeEvaluator._generate_improvement_priorities`: dimensions
stably sorted by ascending score, first three, kept when `score < 3.5`
(f-string number formatting elided). -/
def generate_improvement_priorities (dimension_scores : List (String × ℚ)) :
    List String :=
  let sortedDims := dimension_scores.mergeSort (fun x y => decide (x.2 ≤ y.2))
  ((sortedDims.take 3).filter (fun p => decide (p.2 < 7/2))).map
    (fun p => "Improve " ++ p.1)

/-- `LLMJudgeEvaluator._identify_strengths`: dimensions scoring `>= 4.0`
(f-string number formatting elided). -/
def identify_strengths (dimension_scores : List (String × ℚ)) : List String :=
  (dimension_scores.filter (fun p => decide (4 ≤ p.2))).map
    (fun p => "Strong " ++ p.1)

/-- `LLMJudgeEvaluator._generate_revision_recommendations`. -/
def generate_revision_recommendations (critique_points : List CritiquePoint) :
    List String :=
  let high := critique_points.filter (fun cp => decide (4 ≤ cp.priority_level))
  let medium := critique_points.filter (fun cp => cp.priority_level == 3)
  high.map (fun cp => "HIGH PRIORITY: " ++ cp.suggested_improvement) ++
    (medium.take 2).map (fun cp => "MEDIUM PRIORITY: " ++ cp.suggested_improvement)

/-- The successful path of `LLMJudgeEvaluator.evaluate_variant` (the body
of its `try` block): per-dimension scores in criteria order, critique
points gathered per dimension, the weighted overall score, priorities,
strengths and recommendations. -/
def evaluateVariantCore (variant : ContentVariant) (required_elements : List String)
    (evidenceQuality : List ℚ) (r : EvaluationDimension → ℚ) : ComprehensiveCritique :=
  let score := fun d =>
    calc_dimension_score variant.content d required_elements evidenceQuality (r d)
  let dimension_scores := allDimensions.map (fun d => (dimensionName d, score d))
  let critique_points :=
    (allDimensions.map (fun d => generate_dimension_critique_points d (score d))).flatten
  let overall_score := (allDimensions.map (fun d => score d * dimensionWeight d)).sum
  { critique_id := "critique_" ++ variant.variant_id
    target_variant_id := variant.variant_id
    overall_score := overall_score
    dimension_scores := dimension_scores
    critique_points := critique_points
    improvement_priorities := generate_improvement_priorities dimension_scores
    strengths_identified := identify_strengths dimension_scores
    revision_recommendations := generate_revision_recommendations critique_points
    timestamp := "" }

/-- `LLMJudgeEvaluator._create_fallback_critique`: all dimension scores
`3.0`, overall `3.0`, an empty `critique_points` list, and single generic
priority/strength/recommendation strings. -/
def create_fallback_critique (variant : ContentVariant) : ComprehensiveCritique :=
  { critique_id := "fallback_" ++ variant.variant_id
    target_variant_id := variant.variant_id
    overall_score := 3
    dimension_scores := allDimensions.map (fun d => (dimensionName d, 3))
    critique_points := []
    improvement_priorities := ["General improvement needed"]
    strengths_identified := ["Content generated successfully"]
    revision_recommendations := ["Review and refine content"]
    timestamp := "" }

/-- `LLMJudgeEvaluator.evaluate_variant` with its `try/except`: `attempt`
models whether any step inside the `try` block raised; on failure the
fallback critique is returned instead of propagating the exception. -/
def evaluate_variant (variant : ContentVariant) (attempt : Except String Unit)
    (required_elements : List String) (evidenceQuality : List ℚ)
    (r : EvaluationDimension → ℚ) : ComprehensiveCritique :=
  match attempt with
  | .ok _ => evaluateVariantCore variant required_elements evidenceQuality r
  | .error _ => create_fallback_critique variant

/-! ## The merger (`VariantMerger`) -/

/-- Python `max(l)` over naturals (`0` stands for the `ValueError` on an
empty list; `merge_variants` only dispatches with at least two variants). -/
def listMaxNat : List Nat → Nat
  | [] => 0
  | x :: xs => xs.foldl max x

/-- The quality score looked up through the `critique_map` dict
comprehension: `{c.target_variant_id: c for c in critiques}` keeps the
last critique per id, and a missing id defaults to `3.0`. -/
def critiqueLookupScore (critiques : List ComprehensiveCritique) (vid : String) : ℚ :=
  match critiques.reverse.find? (fun c => c.target_variant_id == vid) with
  | some c => c.overall_score
  | none => 3

/-- Python `max(section_candidates, key=lambda x: x['quality'])`: the
first candidate with the maximal quality (`max` keeps the current value
on ties). -/
def pickBestSection : List (List Char × ℚ) → Option (List Char)
  | [] => none
  | c :: cs =>
    some (cs.foldl (fun best cand => if best.2 < cand.2 then cand else best) c).1

/-- `VariantMerger._merge_best_sections`: split every variant's content on
`'\n\n'`, then for every section index up to the longest variant's section
count pick the candidate section with the highest critique
`overall_score`, and rejoin with `'\n\n'`. The `variant_sections` dict is
embedded as an association list in insertion order; variant ids (md5
hashes of distinct inputs) are treated as distinct keys. -/
def merge_best_sections (variants : List ContentVariant)
    (critiques : List ComprehensiveCritique) : String :=
  let variant_sections := variants.map (fun v => (v.variant_id, splitSections v.content))
  let max_sections := listMaxNat (variant_sections.map (fun p => p.2.length))
  let merged_sections := (List.range max_sections).filterMap (fun idx =>
    let section_candidates := variant_sections.filterMap (fun p =>
      if h : idx < p.2.length then
        some (p.2.get ⟨idx, h⟩, critiqueLookupScore critiques p.1)
      else
        none)
    pickBestSection section_candidates)
  joinSections merged_sections

/-- `VariantMerger.merge_variants`: empty input returns `""`, a single
variant returns its content unchanged, and only then is the selected merge
strategy applied (`merge_strategies.get(strategy, best_sections)`
dispatches to one of four total merge functions, so `mergeFunc` ranges
over the dispatched implementation; the `except` fallback branch is
unreachable for these total functions). -/
def merge_variants
    (mergeFunc : List ContentVariant → List ComprehensiveCritique → String)
    (variants : List ContentVariant) (critiques : List ComprehensiveCritique) :
    String :=
  match variants with
  | [] => ""
  | [v] => v.content
  | _ => mergeFunc variants critiques

/-! ## `SelfEvolutionAgent._evaluate_variants`

The loop judges each variant in order; a successful call appends the
critique and then reassigns `variant.quality_scores =
critique.dimension_scores` in place; a raising call is caught and skips
both. The in-place mutation is embedded by returning the post-loop
variant list next to the critique list. -/

/-- `SelfEvolutionAgent._evaluate_variants` (with `judge` standing for
`llm_judge.evaluate_variant`, which may be modelled as failing to cover
the `except` branch). -/
def evaluate_variants
    (judge : ContentVariant → Except String ComprehensiveCritique) :
    List ContentVariant → List ContentVariant × List ComprehensiveCritique
  | [] => ([], [])
  | v :: vs =>
    let rest := evaluate_variants judge vs
    match judge v with
    | .ok critique =>
      ({ v with quality_scores := critique.dimension_scores } :: rest.1,
        critique :: rest.2)
    | .error _ => (v :: rest.1, rest.2)

/-! ## Spec-side formula and concrete sample data -/

/-- The claim's severity formula, `clamp(round(4 - score), 1, 5)`, written
from the spec's words (with `round` as round-half-up via `specRound`) to
compare against the source's `int(4 - score)`. -/
def specSeverity (score : ℚ) : Int :=
  max 1 (min 5 (specRound (4 - score)))

/-- A configuration whose custom `max_iterations` is `0` (accepted by
`evolve_content`, which applies `config.update(custom_config)` without
validating the value). -/
def zeroIterationConfig : EvolutionConfig :=
  { defaultConfig with max_iterations := 0 }

/-- A valid input (non-empty content, truthy target section) carrying
`zeroIterationConfig`. -/
def zeroIterationInput : EvolveInput :=
  { content := "X", has_target_section := true, config := zeroIterationConfig }

/-- A valid input carrying the default configuration. -/
def defaultInput : EvolveInput :=
  { content := "X", has_target_section := true, config := defaultConfig }

/-- An iteration oracle whose merge result always judges at `4.5`
(above the convergence threshold). -/
def convergingOracle : Nat → String → Except String IterResult :=
  fun _ _ => .ok { best_content := "Y", best_score := 9/2 }

/-- An iteration oracle whose merge result always judges at `3.5`
(below the convergence threshold, so the run plateaus). -/
def plateauOracle : Nat → String → Except String IterResult :=
  fun _ _ => .ok { best_content := "x", best_score := 7/2 }

/-- A concrete variant (the generation-failure fallback for a short base
text). -/
def sampleVariant : ContentVariant :=
  create_fallback_variant "Sample base content." VariantType.perspective_shift

/-- A concrete critique carrying a non-empty `dimension_scores` dict, used
to exhibit the in-place `quality_scores` reassignment. -/
def mutationCritique : ComprehensiveCritique :=
  { critique_id := "c1"
    target_variant_id := "fallback_Sample base content."
    overall_score := 4
    dimension_scores := [("accuracy", 4)]
    critique_points := []
    improvement_priorities := []
    strengths_identified := []
    revision_recommendations := []
    timestamp := "" }

/-- A judge oracle that always succeeds with `mutationCritique`. -/
def mutationJudge : ContentVariant → Except String ComprehensiveCritique :=
  fun _ => .ok mutationCritique

/-- Two variants with identical two-section content but distinct ids. -/
def mergeWitnessA : ContentVariant :=
  create_fallback_variant "A\n\nB" VariantType.perspective_shift

/-- Second merge witness variant (distinct id, same content). -/
def mergeWitnessB : ContentVariant :=
  { create_fallback_variant "A\n\nB" VariantType.critical_analysis with
    variant_id := "variantB" }

/-! ## Helper lemmas -/

/-- Two-step list induction matching the recursion pattern of `splitTwo`. -/
theorem twoStepInduction {α : Type} {P : List α → Prop} (s : List α) (h0 : P [])
    (h1 : ∀ c, P [c])
    (h2 : ∀ c1 c2 rest, P rest → P (c2 :: rest) → P (c1 :: c2 :: rest)) :
    P s := by
  have key : ∀ t : List α, P t ∧ ∀ c, P (c :: t) := by
    intro t
    induction t with
    | nil => exact ⟨h0, h1⟩
    | cons x xs ih => exact ⟨ih.2 x, fun c => h2 c x xs ih.1 (ih.2 x)⟩
  exact (key s).1

/-- Python `split` never returns an empty list of pieces. -/
theorem splitTwo_ne_nil (a b : Char) (s : List Char) : splitTwo a b s ≠ [] := by
  match s with
  | [] => simp [splitTwo]
  | [c] => simp [splitTwo]
  | c1 :: c2 :: rest =>
    simp only [splitTwo]
    split
    · simp
    · split <;> simp

/-- Joining the pieces of a Python `split` with the same separator is the
identity (`sep.join(s.split(sep)) == s`). -/
theorem joinTwo_splitTwo (a b : Char) (s : List Char) :
    joinTwo a b (splitTwo a b s) = s := by
  induction s using twoStepInduction with
  | h0 => simp [splitTwo, joinTwo]
  | h1 c => simp [splitTwo, joinTwo]
  | h2 c1 c2 rest ih1 ih2 =>
    simp only [splitTwo]
    by_cases h : c1 = a ∧ c2 = b
    · rw [if_pos h]
      obtain ⟨x, xs, hx⟩ := List.exists_cons_of_ne_nil (splitTwo_ne_nil a b rest)
      rw [hx] at ih1 ⊢
      simp only [joinTwo, List.nil_append]
      rw [ih1, h.1, h.2]
    · rw [if_neg h]
      obtain ⟨x, xs, hx⟩ := List.exists_cons_of_ne_nil (splitTwo_ne_nil a b (c2 :: rest))
      rw [hx] at ih2 ⊢
      cases xs with
      | nil =>
        simp only [joinTwo] at ih2 ⊢
        rw [ih2]
      | cons y ys =>
        simp only [joinTwo, List.cons_append] at ih2 ⊢
        rw [ih2]

/-- The structural split/join round trip on `String`. -/
theorem joinSections_splitSections (s : String) :
    joinSections (splitSections s) = s := by
  cases s with
  | mk data => simp [joinSections, splitSections, joinTwo_splitTwo]

/-- The one-pass invariant of the evolution loop: monotone history whose
last entry is the running best, a best score that never decreases, and an
iteration counter that advances by one per pass up to the fuel. -/
theorem evolveLoop_inv (cfg : EvolutionConfig)
    (g : Nat → String → Except String IterResult) :
    ∀ (fuel : Nat) (st st' : LoopState),
    evolveLoop cfg g fuel st = .ok st' →
    st.score_history.Chain' (· ≤ ·) →
    (∀ x ∈ st.score_history, x ≤ st.best_score) →
    (st.score_history ≠ [] → st.score_history.getLast? = some st.best_score) →
    (st'.score_history.Chain' (· ≤ ·) ∧
      (∀ x ∈ st'.score_history, x ≤ st'.best_score) ∧
      (st'.score_history ≠ [] → st'.score_history.getLast? = some st'.best_score) ∧
      st.best_score ≤ st'.best_score ∧
      st.completed_iterations ≤ st'.completed_iterations ∧
      st'.completed_iterations ≤ st.completed_iterations + fuel ∧
      (1 ≤ fuel → st.completed_iterations + 1 ≤ st'.completed_iterations)) := by
  intro fuel
  induction fuel with
  | zero =>
    intro st st' hok hchain hle hlast
    simp only [evolveLoop] at hok
    cases hok
    exact ⟨hchain, hle, hlast, le_refl _, le_refl _, by omega, by omega⟩
  | succ n ih =>
    intro st st' hok hchain hle hlast
    simp only [evolveLoop] at hok
    cases hg : g (st.completed_iterations + 1) st.best_content with
    | error e => rw [hg] at hok; cases hok
    | ok r =>
      rw [hg] at hok
      simp only at hok
      -- Invariant facts for the post-step state `loopStep st r`.
      have hbest : st.best_score ≤ (loopStep st r).best_score := by
        simp only [loopStep]
        split
        · exact le_of_lt (by assumption)
        · exact le_refl _
      have hhist : (loopStep st r).score_history =
          st.score_history ++ [(loopStep st r).best_score] := by
        simp only [loopStep]
      have hcomp : (loopStep st r).completed_iterations =
          st.completed_iterations + 1 := by
        simp only [loopStep]
      have hle2 : ∀ x ∈ (loopStep st r).score_history,
          x ≤ (loopStep st r).best_score := by
        intro x hx
        rw [hhist] at hx
        rcases List.mem_append.1 hx with hx | hx
        · exact le_trans (hle x hx) hbest
        · simp at hx; rw [hx]
      have hchain2 : (loopStep st r).score_history.Chain' (· ≤ ·) := by
        rw [hhist]
        rw [List.chain'_append]
        refine ⟨hchain, List.chain'_singleton _, ?_⟩
        intro x hx y hy
        simp only [List.head?_cons, Option.mem_def, Option.some.injEq] at hy
        subst hy
        have hne : st.score_history ≠ [] := by
          intro hnil; rw [hnil] at hx; simp at hx
        have := hlast hne
        rw [this] at hx
        simp only [Option.mem_def, Option.some.injEq] at hx
        subst hx
        exact hbest
      have hlast2 : (loopStep st r).score_history ≠ [] →
          (loopStep st r).score_history.getLast? =
            some (loopStep st r).best_score := by
        intro _
        rw [hhist]
        exact List.getLast?_concat _
      -- Case on whether the convergence check lets the loop continue.
      by_cases hc : (check_convergence cfg (loopStep st r).score_history
          (loopStep st r).best_score (st.completed_iterations + 1 : Int)).1 = true
      · rw [if_pos hc] at hok
        obtain ⟨c1, c2, c3, c4, c5, c6, _⟩ :=
          ih (loopStep st r) st' hok hchain2 hle2 hlast2
        refine ⟨c1, c2, c3, le_trans hbest c4, ?_, ?_, ?_⟩
        · omega
        · omega
        · omega
      · rw [if_neg hc] at hok
        cases hok
        exact ⟨hchain2, hle2, hlast2, hbest, by omega, by omega, by omega⟩

/-- Python `int()` agrees with the floor on non-negative rationals. -/
theorem pyInt_eq_floor (q : ℚ) (h : 0 ≤ q) : pyInt q = ⌊q⌋ := by
  rw [pyInt, Rat.floor_def]
  exact Int.tdiv_eq_ediv (by exact_mod_cast Rat.num_nonneg.mpr h)
    (Int.ofNat_nonneg q.den)

/-- Python `max` over a non-empty constant list of lengths. -/
theorem listMaxNat_map_const {α : Type} (l : List α) (k : Nat) (h : l ≠ []) :
    listMaxNat (l.map (fun _ => k)) = k := by
  cases l with
  | nil => cases h rfl
  | cons x xs =>
    simp only [List.map_cons, listMaxNat]
    have : ∀ (ys : List α), ((ys.map (fun _ => k)).foldl max k) = k := by
      intro ys
      induction ys with
      | nil => rfl
      | cons y ys ih => simpa [max_self] using ih
    exact this xs

/-- When every candidate carries the same section text, the quality-based
pick returns that text. -/
theorem pickBestSection_first_const (x : List Char)
    (l : List (List Char × ℚ)) (hne : l ≠ []) (hall : ∀ p ∈ l, p.1 = x) :
    pickBestSection l = some x := by
  cases l with
  | nil => cases hne rfl
  | cons c cs =>
    simp only [pickBestSection, Option.some.injEq]
    have aux : ∀ (ds : List (List Char × ℚ)) (acc : List Char × ℚ),
        acc.1 = x → (∀ p ∈ ds, p.1 = x) →
        (ds.foldl (fun best cand => if best.2 < cand.2 then cand else best) acc).1
          = x := by
      intro ds
      induction ds with
      | nil => intro acc hacc _; exact hacc
      | cons d ds ih =>
        intro acc hacc hall2
        simp only [List.foldl_cons]
        apply ih
        · split
          · exact hall2 d (by simp)
          · exact hacc
        · intro p hp
          exact hall2 p (by simp [hp])
    exact aux cs c (hall c (by simp)) (fun p hp => hall p (by simp [hp]))

/-- Reading every index of a list back in order reproduces the list. -/
theorem range_filterMap_getElem {α : Type} :
    ∀ (l : List α), (List.range l.length).filterMap (fun i => l[i]?) = l := by
  intro l
  induction l with
  | nil => simp
  | cons x xs ih =>
    rw [List.length_cons, List.range_succ_eq_map, List.filterMap_cons]
    simp only [List.getElem?_cons_zero]
    rw [List.filterMap_map]
    have hc : ((fun i => (x :: xs)[i]?) ∘ Nat.succ) = fun i => xs[i]? := by
      funext i
      simp
    rw [hc, ih]

/-! ## Claim theorems -/

/-- C1 counterexample: the spec's own example history `[3.0, 3.05, 3.08]`
satisfies the claimed plateau condition (`max - min = 0.08 < 0.1` over the
last 3 entries) yet `_detect_plateau` returns `False` — its guard demands
at least `window + 1 = 4` history entries — so `_check_convergence` lets
the loop continue. -/
theorem C1_counterexample :
    listMax (pyLastSlice 3 [(3 : ℚ), 61/20, 77/25]) -
      listMin (pyLastSlice 3 [(3 : ℚ), 61/20, 77/25]) < 1/10 ∧
    detect_plateau defaultConfig [3, 61/20, 77/25] = false ∧
    check_convergence defaultConfig [3, 61/20, 77/25] (77/25) 3 =
      (true, "Continue evolution") := by
  refine ⟨by norm_num [pyLastSlice, listMax, listMin, max_def, min_def],
    by norm_num [detect_plateau, defaultConfig, pyLastSlice, listMax, listMin],
    by norm_num [check_convergence, defaultConfig, detect_plateau, pyLastSlice,
      listMax, listMin, max_def, min_def]⟩

/-- C1 (amended): plateau detection additionally requires at least
`plateau_window + 1` score-history entries; given that, it fires exactly
when `max - min` over the last `plateau_window` entries is below the
improvement threshold, and (when neither the iteration budget nor the
convergence threshold has already stopped the run) `_check_convergence`
then terminates the loop with the plateau reason. With the defaults, the
4-entry history `[2.0, 3.0, 3.05, 3.08]` triggers detection while
`[3.0, 3.5, 4.0]` does not. -/
theorem C1_plateau_detection (cfg : EvolutionConfig) (h : List ℚ) (s : ℚ)
    (i : Int)
    (hlen : cfg.plateau_detection_window + 1 ≤ h.length)
    (hiter : i < cfg.max_iterations)
    (hconv : s < cfg.convergence_threshold) :
    (detect_plateau cfg h = true ↔
      listMax (pyLastSlice cfg.plateau_detection_window h) -
        listMin (pyLastSlice cfg.plateau_detection_window h) <
        cfg.quality_improvement_threshold) ∧
    (detect_plateau cfg h = true →
      check_convergence cfg h s i =
        (false, "Quality plateau detected - no significant improvement")) ∧
    detect_plateau defaultConfig [2, 3, 61/20, 77/25] = true ∧
    detect_plateau defaultConfig [3, 7/2, 4] = false := by
  refine ⟨?_, ?_,
    by norm_num [detect_plateau, defaultConfig, pyLastSlice, listMax, listMin,
      max_def, min_def],
    by norm_num [detect_plateau, defaultConfig, pyLastSlice, listMax, listMin,
      max_def, min_def]⟩
  · simp only [detect_plateau]
    rw [if_neg (by omega)]
    exact decide_eq_true_iff
  · intro hp
    simp only [check_convergence]
    rw [if_neg (not_le.mpr hiter), if_neg (not_le.mpr hconv), if_pos hp]

/-- C1 witness: the amended theorem applied to the concrete 4-entry
history, run state `score = 3.08` after iteration 4 of 5. -/
theorem C1_witness :
    defaultConfig.plateau_detection_window + 1 ≤
      ([2, 3, 61/20, 77/25] : List ℚ).length ∧
    check_convergence defaultConfig [2, 3, 61/20, 77/25] (77/25) 4 =
      (false, "Quality plateau detected - no significant improvement") :=
  ⟨by norm_num [defaultConfig],
    (C1_plateau_detection defaultConfig [2, 3, 61/20, 77/25] (77/25) 4
      (by norm_num [defaultConfig]) (by norm_num [defaultConfig])
      (by norm_num [defaultConfig])).2.1
      (by norm_num [detect_plateau, defaultConfig, pyLastSlice, listMax, listMin,
        max_def, min_def])⟩

/-- C7: `merge_variants` returns `""` on an empty variant list and the
single variant's content unchanged on a one-element list, for every
critique list and every dispatched merge strategy. -/
theorem C7_merge_base_cases
    (mergeFunc : List ContentVariant → List ComprehensiveCritique → String)
    (critiques : List ComprehensiveCritique) (v : ContentVariant) :
    merge_variants mergeFunc [] critiques = "" ∧
    merge_variants mergeFunc [v] critiques = v.content :=
  ⟨rfl, rfl⟩

/-- C10: `evolve_content` is total — every call returns a result dict
whose `status` is `"success"` or `"error"` (the outer `try/except`
converts any raised exception, including iteration-oracle failures, into
the error dict), and an input with empty content or a falsy
`target_section` yields the `status == 'error'` dict carrying the
validation message rather than a raised exception. -/
theorem C10_total_entry_point (input : EvolveInput)
    (runIter : Nat → String → Except String IterResult) :
    ((evolve_content input runIter).status = "success" ∨
      (evolve_content input runIter).status = "error") ∧
    ((input.content = "" ∨ input.has_target_section = false) →
      evolve_content input runIter =
        { status := "error"
          error := some "Missing required input: content or target_section"
          final_content := none
          final_score := none
          iterations_completed := none }) := by
  constructor
  · simp only [evolve_content]
    by_cases hv : input.content = "" ∨ input.has_target_section = false
    · rw [if_pos hv]
      right
      rfl
    · rw [if_neg hv]
      cases hloop : evolveLoop input.config runIter input.config.max_iterations.toNat
          { best_content := input.content, best_score := 0,
            completed_iterations := 0, score_history := [] } with
      | ok st => left; rfl
      | error e => right; rfl
  · intro hv
    simp only [evolve_content]
    rw [if_pos hv]

/-- C10 witness: the empty-content input produces the validation-error
dict. -/
theorem C10_witness :
    evolve_content
        { content := "", has_target_section := true, config := defaultConfig }
        convergingOracle =
      { status := "error"
        error := some "Missing required input: content or target_section"
        final_content := none
        final_score := none
        iterations_completed := none } :=
  (C10_total_entry_point
    { content := "", has_target_section := true, config := defaultConfig }
    convergingOracle).2 (Or.inl rfl)

/-- C6 counterexample: a run configured with `max_iterations = 0` (the
source applies custom config values without validation) returns a
`status == 'success'` result with `iterations_completed = 0`, violating
the claimed lower bound `1 ≤ iterations_completed`. -/
theorem C6_counterexample :
    evolve_content zeroIterationInput convergingOracle =
      { status := "success"
        error := none
        final_content := some "X"
        final_score := some 0
        iterations_completed := some 0 } :=
  rfl

/-- C6 (amended): for every run whose configured `max_iterations` is at
least `1`, a result carrying an `iterations_completed` count (i.e. a
success result) satisfies `1 ≤ iterations_completed ≤ max_iterations`;
with `max_iterations ≤ 0` the run instead succeeds with zero iterations. -/
theorem C6_iteration_bounds (input : EvolveInput)
    (runIter : Nat → String → Except String IterResult) (n : Nat)
    (hmax : 1 ≤ input.config.max_iterations)
    (hn : (evolve_content input runIter).iterations_completed = some n) :
    (evolve_content input runIter).status = "success" ∧
    1 ≤ n ∧ (n : Int) ≤ input.config.max_iterations := by
  by_cases hv : input.content = "" ∨ input.has_target_section = false
  · simp only [evolve_content, if_pos hv] at hn
    cases hn
  · simp only [evolve_content, if_neg hv] at hn ⊢
    cases hloop : evolveLoop input.config runIter input.config.max_iterations.toNat
        { best_content := input.content, best_score := 0,
          completed_iterations := 0, score_history := [] } with
    | error e => rw [hloop] at hn; cases hn
    | ok st =>
      rw [hloop] at hn
      simp only [Option.some.injEq] at hn
      obtain ⟨_, _, _, _, _, hub, hlb⟩ :=
        evolveLoop_inv input.config runIter input.config.max_iterations.toNat _ st
          hloop List.chain'_nil (by simp) (by simp)
      have h0 : (0 : Int) ≤ input.config.max_iterations := by omega
      have htn : (input.config.max_iterations.toNat : Int) =
          input.config.max_iterations := Int.toNat_of_nonneg h0
      have hub2 : st.completed_iterations ≤ input.config.max_iterations.toNat := by
        simpa using hub
      have hlb2 : 1 ≤ input.config.max_iterations.toNat →
          1 ≤ st.completed_iterations := by
        simpa using hlb
      refine ⟨rfl, ?_, ?_⟩ <;> omega

/-- C6 witness: the default configuration (`max_iterations = 5`) with an
oracle that converges immediately completes exactly one iteration. -/
theorem C6_witness :
    1 ≤ defaultInput.config.max_iterations ∧
    (evolve_content defaultInput convergingOracle).iterations_completed = some 1 ∧
    (1 ≤ 1 ∧ ((1 : Nat) : Int) ≤ defaultInput.config.max_iterations) := by
  have hn : (evolve_content defaultInput convergingOracle).iterations_completed
      = some 1 := by
    norm_num [evolve_content, defaultInput, evolveLoop, loopStep,
      check_convergence, detect_plateau, convergingOracle, defaultConfig,
      pyLastSlice, listMax, listMin]
    rfl
  exact ⟨by norm_num [defaultInput, defaultConfig], hn,
    (C6_iteration_bounds defaultInput convergingOracle 1
      (by norm_num [defaultInput, defaultConfig]) hn).2⟩

/-- C2: over every run of the evolution loop started from
`evolve_content`'s initial state (`best_score = 0`, empty history), the
final score history is non-decreasing, every entry is bounded by the final
best score, the last entry equals the final best score (each appended
entry is the running best), and a single loop pass updates
`best_content`/`best_score` exactly when the iteration's best critique
score strictly exceeds the current best. -/
theorem C2_monotonic_ratchet (cfg : EvolutionConfig)
    (runIter : Nat → String → Except String IterResult) (fuel : Nat)
    (base_content : String) (st' : LoopState)
    (hok : evolveLoop cfg runIter fuel
      { best_content := base_content, best_score := 0,
        completed_iterations := 0, score_history := [] } = .ok st') :
    st'.score_history.Chain' (· ≤ ·) ∧
    (∀ x ∈ st'.score_history, x ≤ st'.best_score) ∧
    (st'.score_history ≠ [] → st'.score_history.getLast? = some st'.best_score) ∧
    (∀ (st : LoopState) (r : IterResult),
      (loopStep st r).score_history =
        st.score_history ++ [(loopStep st r).best_score] ∧
      st.best_score ≤ (loopStep st r).best_score ∧
      (¬ st.best_score < r.best_score →
        (loopStep st r).best_score = st.best_score ∧
        (loopStep st r).best_content = st.best_content) ∧
      (st.best_score < r.best_score →
        (loopStep st r).best_score = r.best_score ∧
        (loopStep st r).best_content = r.best_content)) := by
  obtain ⟨c1, c2, c3, _⟩ :=
    evolveLoop_inv cfg runIter fuel _ st' hok List.chain'_nil (by simp) (by simp)
  refine ⟨c1, c2, c3, ?_⟩
  intro st r
  refine ⟨rfl, ?_, ?_, ?_⟩
  · simp only [loopStep]
    split
    · exact le_of_lt (by assumption)
    · exact le_refl _
  · intro h
    simp [loopStep, if_neg h]
  · intro h
    simp [loopStep, if_pos h]

/-- C2 witness: a five-pass run with a constant-score oracle plateaus
after four iterations with the monotone history `[3.5, 3.5, 3.5, 3.5]`. -/
theorem C2_witness :
    evolveLoop defaultConfig plateauOracle 5
      { best_content := "base", best_score := 0, completed_iterations := 0,
        score_history := [] } =
      .ok { best_content := "x", best_score := 7/2, completed_iterations := 4,
            score_history := [7/2, 7/2, 7/2, 7/2] } ∧
    ([(7 : ℚ)/2, 7/2, 7/2, 7/2] : List ℚ).Chain' (· ≤ ·) := by
  have hrun : evolveLoop defaultConfig plateauOracle 5
      { best_content := "base", best_score := 0, completed_iterations := 0,
        score_history := [] } =
      .ok { best_content := "x", best_score := 7/2, completed_iterations := 4,
            score_history := [7/2, 7/2, 7/2, 7/2] } := by
    norm_num [evolveLoop, loopStep, check_convergence, detect_plateau,
      plateauOracle, defaultConfig, pyLastSlice, listMax, listMin, max_def,
      min_def]
  exact ⟨hrun, (C2_monotonic_ratchet defaultConfig plateauOracle 5 "base" _ hrun).1⟩

/-- C3 counterexample: the fallback critique returned on evaluation
failure has an empty `critique_points` list, not the claimed single
generic critique point (its single generic entry lives in
`improvement_priorities` instead). -/
theorem C3_counterexample :
    (evaluate_variant sampleVariant (.error "judge failure") [] []
      (fun _ => 0)).critique_points = [] ∧
    (evaluate_variant sampleVariant (.error "judge failure") [] []
      (fun _ => 0)).critique_points.length ≠ 1 := by
  exact ⟨rfl, by simp [evaluate_variant, create_fallback_critique]⟩

/-- C3 (amended): whenever the evaluation of a variant fails internally,
`evaluate_variant` returns the neutral fallback critique — every dimension
score exactly `3.0`, `overall_score` exactly `3.0`, an empty
critique-point list, and the single generic improvement priority — and
never propagates an exception to the caller. -/
theorem C3_judge_failure_policy (variant : ContentVariant) (e : String)
    (required_elements : List String) (evidenceQuality : List ℚ)
    (r : EvaluationDimension → ℚ) :
    evaluate_variant variant (.error e) required_elements evidenceQuality r =
      create_fallback_critique variant ∧
    (create_fallback_critique variant).overall_score = 3 ∧
    (∀ p ∈ (create_fallback_critique variant).dimension_scores, p.2 = 3) ∧
    (create_fallback_critique variant).dimension_scores.length = 8 ∧
    (create_fallback_critique variant).critique_points = [] ∧
    (create_fallback_critique variant).improvement_priorities =
      ["General improvement needed"] ∧
    (create_fallback_critique variant).target_variant_id = variant.variant_id := by
  refine ⟨rfl, rfl, ?_, rfl, rfl, rfl, rfl⟩
  intro p hp
  simp only [create_fallback_critique, List.mem_map] at hp
  obtain ⟨d, _, rfl⟩ := hp
  rfl

/-- C4 counterexample: at dimension score `2.4` the source emits severity
`int(4 - 2.4) = 1` (and the same priority), while the claimed formula
`clamp(round(4 - 2.4), 1, 5)` gives `2`. -/
theorem C4_counterexample :
    ((generate_dimension_critique_points EvaluationDimension.accuracy (12/5)).map
      (fun p => p.severity)) = [1] ∧
    ((generate_dimension_critique_points EvaluationDimension.accuracy (12/5)).map
      (fun p => p.priority_level)) = [1] ∧
    specSeverity (12/5) = 2 := by
  have h4 : ((4 : ℚ) - 12/5) = 8/5 := by norm_num
  have hlt : ((12 : ℚ)/5) < 3 := by norm_num
  have hs : pyInt ((4 : ℚ) - 12/5) = 1 := by
    rw [h4, pyInt_eq_floor _ (by norm_num)]
    norm_num [Int.floor_eq_iff]
  refine ⟨?_, ?_, ?_⟩
  · rw [generate_dimension_critique_points, if_pos hlt]
    simp [hs]
  · rw [generate_dimension_critique_points, if_pos hlt]
    simp [hs]
  · rw [specSeverity, specRound, h4]
    norm_num [Int.floor_eq_iff]

/-- C4 (amended): a dimension scoring `3.0` or above produces no critique
point; a dimension scoring strictly below `3.0` produces exactly one
critique point for that dimension, whose severity is `int(4 - score)`
(truncation toward zero, i.e. `⌊4 - score⌋` on this positive range) with
`priority_level` equal to the same value; for scores in `[1.0, 3.0)` this
severity lies in `[1, 3]`, so the claimed `clamp(·, 1, 5)` is vacuous
while the claimed `round` disagrees with the code's truncation. -/
theorem C4_severity_formula (dim : EvaluationDimension) (score : ℚ) :
    (3 ≤ score → generate_dimension_critique_points dim score = []) ∧
    (score < 3 →
      ((generate_dimension_critique_points dim score).length = 1 ∧
        ∀ p ∈ generate_dimension_critique_points dim score,
          p.dimension = dim ∧
          p.severity = pyInt (4 - score) ∧
          p.priority_level = pyInt (4 - score) ∧
          p.suggested_improvement = get_improvement_suggestion dim ∧
          p.evidence_required = get_evidence_requirements dim)) ∧
    (1 ≤ score → score < 3 →
      ∀ p ∈ generate_dimension_critique_points dim score,
        1 ≤ p.severity ∧ p.severity ≤ 3) := by
  refine ⟨?_, ?_, ?_⟩
  · intro h
    rw [generate_dimension_critique_points, if_neg (not_lt.mpr h)]
  · intro h
    rw [generate_dimension_critique_points, if_pos h]
    refine ⟨rfl, ?_⟩
    intro p hp
    simp only [List.mem_singleton] at hp
    subst hp
    exact ⟨rfl, rfl, rfl, rfl, rfl⟩
  · intro h1 h2 p hp
    rw [generate_dimension_critique_points, if_pos h2] at hp
    simp only [List.mem_singleton] at hp
    subst hp
    have h0 : (0 : ℚ) ≤ 4 - score := by linarith
    constructor
    · show (1 : Int) ≤ pyInt (4 - score)
      rw [pyInt_eq_floor _ h0]
      exact Int.le_floor.mpr (by push_cast; linarith)
    · show pyInt (4 - score) ≤ 3
      rw [pyInt_eq_floor _ h0]
      calc ⌊(4 : ℚ) - score⌋ ≤ ⌊(3 : ℚ)⌋ := Int.floor_le_floor (by linarith)
        _ = 3 := by norm_num

/-- C4 witness: a coherence score of `2.4` produces exactly one critique
point with severity `1` inside bounds. -/
theorem C4_witness :
    ((12 : ℚ)/5 < 3) ∧
    (generate_dimension_critique_points EvaluationDimension.coherence
      (12/5)).length = 1 :=
  ⟨by norm_num,
    ((C4_severity_formula EvaluationDimension.coherence (12/5)).2.1
      (by norm_num)).1⟩

/-- The clamp `max(1.0, min(5.0, x))` lands in `[1, 5]` for every `x`. -/
theorem clamp_score_bounds (x : ℚ) : 1 ≤ max 1 (min 5 x) ∧ max 1 (min 5 x) ≤ 5 :=
  ⟨le_max_left 1 _, max_le (by norm_num) (min_le_left _ _)⟩

/-- Every per-dimension score is clamped into `[1, 5]` by the final
`max(1.0, min(5.0, base_score))`. -/
theorem calc_dimension_score_bounds (content : String) (dim : EvaluationDimension)
    (required_elements : List String) (evidenceQuality : List ℚ) (r : ℚ) :
    1 ≤ calc_dimension_score content dim required_elements evidenceQuality r ∧
    calc_dimension_score content dim required_elements evidenceQuality r ≤ 5 :=
  clamp_score_bounds _

/-- A weighted sum with the judge's fixed weights maps per-dimension
scores in `[1, 5]` into `[1, 5]`. -/
theorem weighted_sum_bounds (scores : EvaluationDimension → ℚ)
    (h : ∀ d, 1 ≤ scores d ∧ scores d ≤ 5) :
    1 ≤ (allDimensions.map (fun d => scores d * dimensionWeight d)).sum ∧
    (allDimensions.map (fun d => scores d * dimensionWeight d)).sum ≤ 5 := by
  obtain ⟨ha1, ha2⟩ := h .accuracy
  obtain ⟨hb1, hb2⟩ := h .completeness
  obtain ⟨hc1, hc2⟩ := h .coherence
  obtain ⟨hd1, hd2⟩ := h .originality
  obtain ⟨he1, he2⟩ := h .evidence_quality
  obtain ⟨hf1, hf2⟩ := h .logical_flow
  obtain ⟨hg1, hg2⟩ := h .critical_thinking
  obtain ⟨hh1, hh2⟩ := h .synthesis_quality
  simp only [allDimensions, List.map_cons, List.map_nil, List.sum_cons,
    List.sum_nil, dimensionWeight]
  constructor <;> linarith

/-- C5: the eight fixed dimension weights sum to exactly `1`; every
per-dimension score returned by `_calculate_dimension_score` lies in
`[1, 5]`; any weighted sum of scores in `[1, 5]` with these weights lies
in `[1, 5]`; and hence the `overall_score` computed by the judge's success
path always lies in `[1, 5]`. -/
theorem C5_weights_and_score_bounds :
    (allDimensions.map dimensionWeight).sum = 1 ∧
    (∀ (content : String) (dim : EvaluationDimension)
        (required_elements : List String) (evidenceQuality : List ℚ) (r : ℚ),
      1 ≤ calc_dimension_score content dim required_elements evidenceQuality r ∧
      calc_dimension_score content dim required_elements evidenceQuality r ≤ 5) ∧
    (∀ scores : EvaluationDimension → ℚ,
      (∀ d, 1 ≤ scores d ∧ scores d ≤ 5) →
      1 ≤ (allDimensions.map (fun d => scores d * dimensionWeight d)).sum ∧
      (allDimensions.map (fun d => scores d * dimensionWeight d)).sum ≤ 5) ∧
    (∀ (variant : ContentVariant) (required_elements : List String)
        (evidenceQuality : List ℚ) (r : EvaluationDimension → ℚ),
      1 ≤ (evaluateVariantCore variant required_elements evidenceQuality
          r).overall_score ∧
      (evaluateVariantCore variant required_elements evidenceQuality
          r).overall_score ≤ 5) := by
  refine ⟨by norm_num [allDimensions, dimensionWeight],
    calc_dimension_score_bounds, weighted_sum_bounds, ?_⟩
  intro variant req ev r
  have hover : (evaluateVariantCore variant req ev r).overall_score =
      (allDimensions.map (fun d =>
        calc_dimension_score variant.content d req ev (r d) *
          dimensionWeight d)).sum := rfl
  rw [hover]
  exact weighted_sum_bounds _
    (fun d => calc_dimension_score_bounds variant.content d req ev (r d))

/-- C5 witness: the all-`3.0` score assignment satisfies the bound
hypothesis, and its weighted sum lies in `[1, 5]`. -/
theorem C5_witness :
    (∀ _d : EvaluationDimension, 1 ≤ (3 : ℚ) ∧ (3 : ℚ) ≤ 5) ∧
    (1 ≤ (allDimensions.map (fun d => (3 : ℚ) * dimensionWeight d)).sum ∧
      (allDimensions.map (fun d => (3 : ℚ) * dimensionWeight d)).sum ≤ 5) := by
  have h : ∀ _d : EvaluationDimension, 1 ≤ (3 : ℚ) ∧ (3 : ℚ) ≤ 5 :=
    fun _ => by norm_num
  exact ⟨h, C5_weights_and_score_bounds.2.2.1 (fun _ => (3 : ℚ)) h⟩

/-- C9 counterexample: `_evaluate_variants` does mutate a retained
`ContentVariant` after its creation — the variant enters with
`quality_scores = {'overall': 0.5}` and leaves the loop with
`quality_scores` reassigned to its critique's `dimension_scores`. -/
theorem C9_counterexample :
    (evaluate_variants mutationJudge [sampleVariant]).1 ≠ [sampleVariant] ∧
    ((evaluate_variants mutationJudge [sampleVariant]).1.map
      (fun v => v.quality_scores)) = [[("accuracy", 4)]] ∧
    sampleVariant.quality_scores = [("overall", 1/2)] := by
  refine ⟨?_, rfl, rfl⟩
  simp [evaluate_variants, mutationJudge, sampleVariant, mutationCritique,
    create_fallback_variant]

/-- C9 (amended): critiques are retained exactly as created (the critique
list is the judge's outputs in order, unmodified), and each variant is
retained with precisely one post-creation change — on a successful judging
call its `quality_scores` field is reassigned to the critique's
`dimension_scores`, every other field being preserved (a failed call
leaves the variant untouched and appends no critique). -/
theorem C9_audit_record_mutation
    (judge : ContentVariant → Except String ComprehensiveCritique)
    (variants : List ContentVariant) :
    (evaluate_variants judge variants).2 =
      variants.filterMap (fun v => (judge v).toOption) ∧
    (evaluate_variants judge variants).1 =
      variants.map (fun v =>
        match judge v with
        | .ok c => { v with quality_scores := c.dimension_scores }
        | .error _ => v) ∧
    (evaluate_variants judge variants).1.length = variants.length := by
  induction variants with
  | nil => exact ⟨rfl, rfl, rfl⟩
  | cons v vs ih =>
    obtain ⟨ih1, ih2, _⟩ := ih
    simp only [evaluate_variants, List.map_cons, List.filterMap_cons]
    cases hj : judge v with
    | ok c =>
      simp only [hj, Except.toOption] at ih1 ih2 ⊢
      refine ⟨by rw [ih1], by rw [ih2], ?_⟩
      simp [ih2]
    | error e =>
      simp only [hj, Except.toOption] at ih1 ih2 ⊢
      refine ⟨by rw [ih1], by rw [ih2], ?_⟩
      simp [ih2]

/-- C8: the generation-failure fallback variant copies `base_content`
verbatim, and the `best_sections` merge over any non-empty family of
variants that all carry the same content returns exactly that content —
splitting on `'\n\n'` and rejoining is the identity — both directly and
through the `merge_variants` entry point. -/
theorem C8_oracle_failure_round_trip (variants : List ContentVariant)
    (critiques : List ComprehensiveCritique) (base : String) (vt : VariantType)
    (hne : variants ≠ [])
    (hall : ∀ v ∈ variants, v.content = base) :
    (create_fallback_variant base vt).content = base ∧
    merge_best_sections variants critiques = base ∧
    merge_variants merge_best_sections variants critiques = base := by
  have hsec : merge_best_sections variants critiques = base := by
    simp only [merge_best_sections]
    have h1 : variants.map (fun v => (v.variant_id, splitSections v.content)) =
        variants.map (fun v => (v.variant_id, splitSections base)) :=
      List.map_congr_left (fun v hv => by rw [hall v hv])
    rw [h1]
    have h2 : ((variants.map (fun v => (v.variant_id, splitSections base))).map
        (fun p => p.2.length)) =
        variants.map (fun _ => (splitSections base).length) := by
      rw [List.map_map]
      rfl
    rw [h2, listMaxNat_map_const _ _ hne]
    have h3 : ∀ i ∈ List.range (splitSections base).length,
        pickBestSection
          ((variants.map (fun v => (v.variant_id, splitSections base))).filterMap
            (fun p => if h : i < p.2.length then
                some (p.2.get ⟨i, h⟩, critiqueLookupScore critiques p.1)
              else none)) = (splitSections base)[i]? := by
      intro i hi
      have hilt : i < (splitSections base).length := List.mem_range.1 hi
      rw [List.filterMap_map]
      have hfn : ((fun p : String × List (List Char) =>
          if h : i < p.2.length then
            some (p.2.get ⟨i, h⟩, critiqueLookupScore critiques p.1)
          else none) ∘
            (fun v : ContentVariant => (v.variant_id, splitSections base))) =
          fun v : ContentVariant => some ((splitSections base).get ⟨i, hilt⟩,
            critiqueLookupScore critiques v.variant_id) := by
        funext v
        simp only [Function.comp_apply]
        rw [dif_pos hilt]
      rw [hfn]
      rw [show (fun v : ContentVariant =>
          some ((splitSections base).get ⟨i, hilt⟩,
            critiqueLookupScore critiques v.variant_id)) =
          some ∘ (fun v : ContentVariant =>
            ((splitSections base).get ⟨i, hilt⟩,
              critiqueLookupScore critiques v.variant_id))
        from rfl, List.filterMap_eq_map]
      have hmne : variants.map (fun v : ContentVariant =>
          ((splitSections base).get ⟨i, hilt⟩,
            critiqueLookupScore critiques v.variant_id)) ≠ [] := by
        intro hmap
        exact hne (List.map_eq_nil_iff.mp hmap)
      have hfirsts : ∀ p ∈ variants.map (fun v : ContentVariant =>
          ((splitSections base).get ⟨i, hilt⟩,
            critiqueLookupScore critiques v.variant_id)),
          p.1 = (splitSections base).get ⟨i, hilt⟩ := by
        intro p hp
        obtain ⟨v, _, rfl⟩ := List.mem_map.1 hp
        rfl
      rw [pickBestSection_first_const _ _ hmne hfirsts,
        List.getElem?_eq_getElem hilt]
      rfl
    rw [List.filterMap_congr h3, range_filterMap_getElem,
      joinSections_splitSections]
  refine ⟨rfl, hsec, ?_⟩
  cases variants with
  | nil => cases hne rfl
  | cons v vs =>
    cases vs with
    | nil => exact hall v (by simp)
    | cons v2 vs2 => exact hsec

/-- C8 witness: two distinct-id variants sharing the two-section content
`"A\n\nB"` merge back to exactly that content. -/
theorem C8_witness :
    ([mergeWitnessA, mergeWitnessB] ≠ ([] : List ContentVariant)) ∧
    (∀ v ∈ [mergeWitnessA, mergeWitnessB], v.content = "A\n\nB") ∧
    merge_best_sections [mergeWitnessA, mergeWitnessB] [] = "A\n\nB" := by
  have hall : ∀ v ∈ [mergeWitnessA, mergeWitnessB], v.content = "A\n\nB" := by
    intro v hv
    simp only [List.mem_cons, List.mem_singleton] at hv
    rcases hv with rfl | rfl | hv
    · rfl
    · rfl
    · cases hv
  exact ⟨by simp, hall,
    (C8_oracle_failure_round_trip [mergeWitnessA, mergeWitnessB] [] "A\n\nB"
      VariantType.perspective_shift (by simp) hall).2.1⟩

end SelfEvolution
